import Mathlib

/-!
Verification development for the mcp-vnc server (TypeScript sources under
`src/`).  Each TypeScript function relevant to the verified properties is
shallowly embedded as a Lean definition; buffers (`Buffer`) are modelled as
`List Nat` of byte values, JavaScript numbers used as integers are modelled
as `Nat`/`Int`, and the timing/event behaviour of the async code is modelled
as explicit event lists and small state machines.
-/

/-! ## Keyboard input parsing (`src/vnc/keyboard.ts`) -/

/-- Splitting a character list at every plus sign, keeping empty segments;
model of JavaScript `keyInput.split('+')`. -/
def splitOnPlus : List Char → List (List Char)
  | [] => [[]]
  | c :: rest =>
    if c = '+' then [] :: splitOnPlus rest
    else
      match splitOnPlus rest with
      | [] => [[c]]
      | p :: ps => (c :: p) :: ps

/-- Removing leading and trailing whitespace from a character list; model of
JavaScript `String.prototype.trim` on each part. -/
def trimList (l : List Char) : List Char :=
  ((l.dropWhile Char.isWhitespace).reverse.dropWhile Char.isWhitespace).reverse

/-- Result of `parseKeyInput` (`src/types.ts`, interface `KeyInput`). -/
structure KeyInput where
  modifiers : List String
  key : String
deriving DecidableEq

/-- Model of `parseKeyInput` from `src/vnc/keyboard.ts`: split the combination string
on `+` and trim each part; a single part is the key with no modifiers,
otherwise the last part is the key and the earlier parts are the modifiers in
the given order. -/
def parseKeyInput (keyInput : String) : KeyInput :=
  let parts := (splitOnPlus keyInput.toList).map (fun p => String.mk (trimList p))
  if parts.length = 1 then
    { modifiers := [], key := parts.headD "" }
  else
    { modifiers := parts.dropLast, key := parts.getLastD "" }

/-- The static key map of `getKeysym` in `src/vnc/keyboard.ts`, entry for
entry in source order. -/
def keysymTable : List (String × Nat) :=
  [("a", 0x0061), ("b", 0x0062), ("c", 0x0063), ("d", 0x0064), ("e", 0x0065),
   ("f", 0x0066), ("g", 0x0067), ("h", 0x0068), ("i", 0x0069), ("j", 0x006a),
   ("k", 0x006b), ("l", 0x006c), ("m", 0x006d), ("n", 0x006e), ("o", 0x006f),
   ("p", 0x0070), ("q", 0x0071), ("r", 0x0072), ("s", 0x0073), ("t", 0x0074),
   ("u", 0x0075), ("v", 0x0076), ("w", 0x0077), ("x", 0x0078), ("y", 0x0079),
   ("z", 0x007a),
   ("A", 0x0041), ("B", 0x0042), ("C", 0x0043), ("D", 0x0044), ("E", 0x0045),
   ("F", 0x0046), ("G", 0x0047), ("H", 0x0048), ("I", 0x0049), ("J", 0x004a),
   ("K", 0x004b), ("L", 0x004c), ("M", 0x004d), ("N", 0x004e), ("O", 0x004f),
   ("P", 0x0050), ("Q", 0x0051), ("R", 0x0052), ("S", 0x0053), ("T", 0x0054),
   ("U", 0x0055), ("V", 0x0056), ("W", 0x0057), ("X", 0x0058), ("Y", 0x0059),
   ("Z", 0x005a),
   ("0", 0x0030), ("1", 0x0031), ("2", 0x0032), ("3", 0x0033), ("4", 0x0034),
   ("5", 0x0035), ("6", 0x0036), ("7", 0x0037), ("8", 0x0038), ("9", 0x0039),
   ("Return", 0xff0d), ("return", 0xff0d), ("Enter", 0xff0d), ("enter", 0xff0d),
   ("Tab", 0xff09), ("tab", 0xff09),
   ("BackSpace", 0xff08), ("Backspace", 0xff08), ("backspace", 0xff08),
   ("Delete", 0xffff), ("delete", 0xffff),
   ("Escape", 0xff1b), ("escape", 0xff1b), ("Esc", 0xff1b),
   ("Space", 0x0020), ("space", 0x0020), (" ", 0x0020),
   ("Home", 0xff50), ("home", 0xff50),
   ("End", 0xff57), ("end", 0xff57),
   ("Page_Up", 0xff55), ("PageUp", 0xff55), ("pageup", 0xff55), ("Page Up", 0xff55),
   ("Page_Down", 0xff56), ("PageDown", 0xff56), ("pagedown", 0xff56), ("Page Down", 0xff56),
   ("Insert", 0xff63), ("insert", 0xff63),
   ("Up", 0xff52), ("up", 0xff52), ("Down", 0xff54), ("down", 0xff54),
   ("Left", 0xff51), ("left", 0xff51), ("Right", 0xff53), ("right", 0xff53),
   ("F1", 0xffbe), ("f1", 0xffbe), ("F2", 0xffbf), ("f2", 0xffbf),
   ("F3", 0xffc0), ("f3", 0xffc0), ("F4", 0xffc1), ("f4", 0xffc1),
   ("F5", 0xffc2), ("f5", 0xffc2), ("F6", 0xffc3), ("f6", 0xffc3),
   ("F7", 0xffc4), ("f7", 0xffc4), ("F8", 0xffc5), ("f8", 0xffc5),
   ("F9", 0xffc6), ("f9", 0xffc6), ("F10", 0xffc7), ("f10", 0xffc7),
   ("F11", 0xffc8), ("f11", 0xffc8), ("F12", 0xffc9), ("f12", 0xffc9),
   ("Ctrl", 0xffe3), ("ctrl", 0xffe3), ("Control", 0xffe3), ("control", 0xffe3),
   ("Shift", 0xffe1), ("shift", 0xffe1), ("Alt", 0xffe9), ("alt", 0xffe9),
   ("Super", 0xffeb), ("super", 0xffeb), ("Meta", 0xffe7), ("meta", 0xffe7),
   ("Cmd", 0xffe7), ("cmd", 0xffe7), ("Win", 0xffeb), ("win", 0xffeb),
   ("-", 0x002d), ("=", 0x003d), ("[", 0x005b), ("]", 0x005d),
   ("\\", 0x005c), (";", 0x003b), (String.singleton (Char.ofNat 39), 0x0027),
   (",", 0x002c), (".", 0x002e), ("/", 0x002f), (String.singleton (Char.ofNat 96), 0x0060),
   ("!", 0x0021), ("@", 0x0040), ("#", 0x0023), ("$", 0x0024), ("%", 0x0025),
   ("^", 0x005e), ("&", 0x0026), ("*", 0x002a), ("(", 0x0028), (")", 0x0029),
   ("_", 0x005f), ("+", 0x002b), (String.singleton (Char.ofNat 123), 0x007b),
   (String.singleton (Char.ofNat 125), 0x007d), ("|", 0x007c),
   (":", 0x003a), ("\"", 0x0022), ("<", 0x003c), (">", 0x003e), ("?", 0x003f),
   ("~", 0x007e)]

/-- Code of the first character of a string; model of JavaScript
`key.charCodeAt(0)` (0 stands in for the `NaN` produced on an empty
string, which no verified property depends on). -/
def firstCharCode (s : String) : Nat :=
  match s.toList with
  | [] => 0
  | c :: _ => c.toNat

/-- Model of `getKeysym` from `src/vnc/keyboard.ts`: static table lookup with the
JavaScript truthiness fallback `keyMap[key] || key.charCodeAt(0)` (a zero
table value would also fall back, though no table entry is zero). -/
def getKeysym (key : String) : Nat :=
  match keysymTable.lookup key with
  | some v => if v = 0 then firstCharCode key else v
  | none => firstCharCode key

/-! ## Input-event synthesis (`src/tools/input.ts`) -/

/-- One observable action sent to the VNC client, or an intentional delay;
`pointer x y mask` models `client.sendPointerEvent(x, y, mask)`, `key k d`
models `client.sendKeyEvent(k, d)`, and `sleep ms` models
`await new Promise(resolve => setTimeout(resolve, ms))`. -/
inductive VncEvent where
  | pointer (x y : Int) (mask : Nat)
  | key (keysym : Nat) (down : Bool)
  | sleep (ms : Nat)
deriving DecidableEq

/-- Event sequence emitted by `handleKeyPress` in `src/tools/input.ts`
(after the connection is established), for a given `key` argument. -/
def handleKeyPressEvents (keyArg : String) : List VncEvent :=
  let parsed := parseKeyInput keyArg
  if parsed.modifiers.length = 0 then
    [VncEvent.key (getKeysym parsed.key) true, VncEvent.sleep 50,
     VncEvent.key (getKeysym parsed.key) false]
  else
    let modifierKeysyms := parsed.modifiers.map getKeysym
    let mainKeysym := getKeysym parsed.key
    (modifierKeysyms.map (fun m => [VncEvent.key m true, VncEvent.sleep 10])).flatten
      ++ [VncEvent.key mainKeysym true, VncEvent.sleep 50,
          VncEvent.key mainKeysym false, VncEvent.sleep 10]
      ++ (modifierKeysyms.reverse.map (fun m => [VncEvent.key m false, VncEvent.sleep 10])).flatten

/-- The button mask chosen by `handleClick`:
`buttonMap[button] || buttonMap.left` over
`{ left: 0x01, right: 0x04, middle: 0x02 }` (an unknown name falls back to
the left mask because the lookup yields `undefined`). -/
def buttonMaskOf (b : String) : Nat :=
  if b = "left" then 0x01
  else if b = "right" then 0x04
  else if b = "middle" then 0x02
  else 0x01

/-- Result of one tool invocation: the text summary and the events sent. -/
structure ToolResult where
  text : String
  events : List VncEvent
deriving DecidableEq

/-- Model of `handleClick` from `src/tools/input.ts` after coordinate validation:
`const button = args.button || 'left'` (JavaScript falsiness, so a missing
or empty button argument becomes `"left"`), `const isDouble = args.double ||
false`, mask lookup with left fallback, then the pointer event sequence and
the summary text. -/
def handleClickCore (x y : Int) (buttonArg : Option String) (doubleArg : Option Bool) : ToolResult :=
  let button :=
    match buttonArg with
    | none => "left"
    | some s => if s = "" then "left" else s
  let isDouble :=
    match doubleArg with
    | none => false
    | some d => d
  let buttonMask := buttonMaskOf button
  let events :=
    if isDouble then
      [VncEvent.pointer x y buttonMask, VncEvent.sleep 50,
       VncEvent.pointer x y 0, VncEvent.sleep 50,
       VncEvent.pointer x y buttonMask, VncEvent.sleep 50,
       VncEvent.pointer x y 0]
    else
      [VncEvent.pointer x y buttonMask, VncEvent.sleep 100,
       VncEvent.pointer x y 0]
  let clickType := if isDouble then "double-clicked" else "clicked"
  { text := clickType ++ " " ++ button ++ " button at (" ++ toString x ++ ", " ++ toString y ++ ")",
    events := events }

/-! ## Coordinate validation (`src/vnc/client.ts`) -/

/-- Model of `CoordinateValidation` from `src/types.ts`. -/
structure CoordinateValidation where
  valid : Bool
  error : Option String
deriving DecidableEq

/-- Model of `validateCoordinates` from `src/vnc/client.ts`: dimensions of zero are
treated as unknown and every point is accepted; otherwise the point must
satisfy `0 ≤ x < width` and `0 ≤ y < height`, and a violation produces the
bounds-error message quoting the inclusive corner coordinates. -/
def validateCoordinates (screenWidth screenHeight : Nat) (x y : Int) : CoordinateValidation :=
  if screenWidth = 0 ∨ screenHeight = 0 then
    { valid := true, error := none }
  else if x < 0 ∨ x ≥ (screenWidth : Int) ∨ y < 0 ∨ y ≥ (screenHeight : Int) then
    { valid := false,
      error := some ("Coordinates (" ++ toString x ++ ", " ++ toString y
        ++ ") are outside screen bounds (0, 0) to ("
        ++ toString (screenWidth - 1) ++ ", " ++ toString (screenHeight - 1) ++ ")") }
  else
    { valid := true, error := none }

/-! ## Pixel-format normalization (`src/tools/screenshot.ts`) -/

deriving instance DecidableEq for Except

/-- The pixel-format descriptor fields read by the screenshot pipeline
(`client.pixelFormat` of the RFB library). -/
structure PixelFormat where
  redShift : Nat
  greenShift : Nat
  blueShift : Nat
  redMax : Nat
  greenMax : Nat
  blueMax : Nat
deriving DecidableEq

/-- The 1-byte branch of `convertToRGBA`: each palette index becomes a
grayscale RGBA pixel (`R=G=B=index, A=255`).  The source loop writes
`buffer[i]` for `i < pixelCount`; with `buffer.length = pixelCount` (the
branch guard) this equals the structural recursion below.  The `% 256`
mirrors the byte truncation of a `Buffer` store. -/
def indexed8ToRGBA : List Nat → List Nat
  | [] => []
  | v :: rest => (v % 256) :: (v % 256) :: (v % 256) :: 255 :: indexed8ToRGBA rest

/-- The 2-byte branch of `convertToRGBA`: each little-endian RGB565 pixel is
split into 5/6/5-bit channels, each scaled by `value * 255 / channelMax`
(JavaScript float division truncated by the byte store). -/
def rgb565ToRGBA : List Nat → List Nat
  | b0 :: b1 :: rest =>
    let pixel16 := (b0 % 256) ||| ((b1 % 256) <<< 8)
    let r5 := (pixel16 >>> 11) &&& 0x1F
    let g6 := (pixel16 >>> 5) &&& 0x3F
    let b5 := pixel16 &&& 0x1F
    (r5 * 255 / 31) :: (g6 * 255 / 63) :: (b5 * 255 / 31) :: 255 :: rgb565ToRGBA rest
  | _ => []

/-- The 3-byte branch of `convertToRGBA`: RGB24 is copied channel for
channel with `A = 255` appended. -/
def rgb24ToRGBA : List Nat → List Nat
  | r :: g :: b :: rest => (r % 256) :: (g % 256) :: (b % 256) :: 255 :: rgb24ToRGBA rest
  | _ => []

/-- Model of `convertToRGBA` from `src/tools/screenshot.ts`: dispatch on
`sourceBytesPerPixel = buffer.length / (width * height)` (an exact
floating-point comparison against 3, 2 and 1, hence the exact-multiple
conditions; the `0 < pixelCount` conjunct reflects that `0 / 0` is `NaN`
in JavaScript and matches no branch), with an unsupported-format error
otherwise.  The unused `pixelFormat` parameter is kept from the source
signature. -/
def convertToRGBA (buffer : List Nat) (width height : Nat) (_pixelFormat : PixelFormat) : Except String (List Nat) :=
  let pixelCount := width * height
  if 0 < pixelCount ∧ buffer.length = 3 * pixelCount then
    Except.ok (rgb24ToRGBA buffer)
  else if 0 < pixelCount ∧ buffer.length = 2 * pixelCount then
    Except.ok (rgb565ToRGBA buffer)
  else if 0 < pixelCount ∧ buffer.length = pixelCount then
    Except.ok (indexed8ToRGBA buffer)
  else
    Except.error "Unsupported pixel format"

/-- Model of `needsPixelFormatConversion` from `src/tools/screenshot.ts`: a 4-byte
format needs conversion unless it is standard RGBA with shifts `R=0, G=8,
B=16` and all channel maxima `255`.  (Defined in the source but never
invoked by `handleScreenshot`.) -/
def needsPixelFormatConversion (pf : PixelFormat) : Bool :=
  !(pf.redShift = 0 && pf.greenShift = 8 && pf.blueShift = 16
    && pf.redMax = 255 && pf.greenMax = 255 && pf.blueMax = 255)

/-- Pixel loop of `convertBGRXToRGBA`, iterating exactly `pixelCount` times
over 4-byte little-endian pixels as the source `for` loop does.  If
`redMax` is `0xFF00` every channel is extracted at `shift + 8`, otherwise
at its declared shift.  (Defined in the source but never invoked by
`handleScreenshot`.) -/
def bgrxPixels (pf : PixelFormat) : Nat → List Nat → List Nat
  | 0, _ => []
  | n + 1, b0 :: b1 :: b2 :: b3 :: rest =>
    let pixel32 := (b0 % 256) ||| ((b1 % 256) <<< 8) ||| ((b2 % 256) <<< 16) ||| ((b3 % 256) <<< 24)
    let rgb :=
      if pf.redMax = 65280 then
        ((pixel32 >>> (pf.redShift + 8)) &&& 0xFF,
         (pixel32 >>> (pf.greenShift + 8)) &&& 0xFF,
         (pixel32 >>> (pf.blueShift + 8)) &&& 0xFF)
      else
        ((pixel32 >>> pf.redShift) &&& 0xFF,
         (pixel32 >>> pf.greenShift) &&& 0xFF,
         (pixel32 >>> pf.blueShift) &&& 0xFF)
    rgb.1 :: rgb.2.1 :: rgb.2.2 :: 255 :: bgrxPixels pf n rest
  | _ + 1, _ => []

/-- Model of `convertBGRXToRGBA` from `src/tools/screenshot.ts`: decode
`width * height` 32-bit little-endian pixels using the format's shifts,
with the `redMax = 0xFF00` high-byte special case. -/
def convertBGRXToRGBA (buffer : List Nat) (width height : Nat) (pf : PixelFormat) : List Nat :=
  bgrxPixels pf (width * height) buffer

/-- Size-mismatch message of the final framebuffer validation in
`handleScreenshot`. -/
def sizeMismatchMsg (width height : Nat) (fb : List Nat) : String :=
  "Framebuffer size mismatch: expected " ++ toString (width * height * 4)
    ++ ", got " ++ toString fb.length

/-- Final framebuffer validation of `handleScreenshot`
(`src/tools/screenshot.ts`): the normalized buffer must hold exactly
`width * height * 4` bytes, otherwise a fatal size-mismatch error is
raised. -/
def checkFramebufferSize (width height : Nat) (fb : List Nat) : Except String (List Nat) :=
  if fb.length = width * height * 4 then Except.ok fb
  else Except.error (sizeMismatchMsg width height fb)

/-- Normalization step of `handleScreenshot`: compute
`actualBytesPerPixel = framebuffer.length / (width * height)`; when it is
not 4, run `convertToRGBA`, otherwise keep the buffer as delivered; then
validate the final size.  (`needsPixelFormatConversion` and
`convertBGRXToRGBA` are not consulted on this path.) -/
def normalizeFramebuffer (width height : Nat) (pf : PixelFormat) (fb : List Nat) : Except String (List Nat) :=
  let step1 :=
    if fb.length = 4 * (width * height) then Except.ok fb
    else convertToRGBA fb width height pf
  match step1 with
  | Except.error e => Except.error e
  | Except.ok fb2 => checkFramebufferSize width height fb2

/-! ## Framebuffer capture (`src/tools/screenshot.ts`, `handleScreenshot`) -/

/-- Modelled from the spec: the RFB client library is an external
collaborator whose boundary (spec section 6) exposes a frame-update request
carrying an incremental flag and a region.  Spec section 4.4 describes the
screenshot-path call — whose first positional argument is `true` — as a
full-region, non-incremental update, so the call's first parameter is
modelled as a full-update flag whose negation is the wire incremental
flag, followed by the region. -/
structure FrameUpdateRequest where
  incremental : Bool
  x : Nat
  y : Nat
  width : Nat
  height : Nat
deriving DecidableEq

/-- Modelled from the spec: `client.requestFrameUpdate(full, x, y, w, h)`
at the library boundary, producing the request described above. -/
def requestFrameUpdate (fullUpdate : Bool) (x y w h : Nat) : FrameUpdateRequest :=
  { incremental := !fullUpdate, x := x, y := y, width := w, height := h }

/-- Timeout of the frame-update wait in `handleScreenshot` (2000 ms). -/
def frameUpdateTimeoutMs : Nat := 2000

/-- The capture step of `handleScreenshot`: the frame-update request it
issues (`client.requestFrameUpdate(true, 0, 0, width, height)`) and how
long it then waits for the `frameUpdated` event. -/
structure CaptureStep where
  request : FrameUpdateRequest
  waitTimeoutMs : Nat
deriving DecidableEq

/-- Request-then-wait issued by `handleScreenshot` for screen dimensions
`width × height`. -/
def screenshotCaptureStep (width height : Nat) : CaptureStep :=
  { request := requestFrameUpdate true 0 0 width height,
    waitTimeoutMs := frameUpdateTimeoutMs }

/-- The awaited frame promise of `handleScreenshot`.
`arrival = some (t, fb)` means the `frameUpdated` event fires at `t` ms
after the request with buffer `fb`; `none` means it never fires.  The
promise resolves with the fresh buffer when the event beats the 2000 ms
timer and rejects with the frame-update timeout otherwise. -/
def freshFrame (arrival : Option (Nat × List Nat)) : Except String (List Nat) :=
  match arrival with
  | some (t, fb) =>
    if t < frameUpdateTimeoutMs then Except.ok fb
    else Except.error "Frame update timeout"
  | none => Except.error "Frame update timeout"

/-- The try/catch around the awaited frame promise: a rejection is caught
and the session's last known buffer `client.fb` is used; only if that is
also absent does the operation fail with the fatal no-framebuffer
error. -/
def captureFramebuffer (arrival : Option (Nat × List Nat)) (lastFb : Option (List Nat)) : Except String (List Nat) :=
  match freshFrame arrival with
  | Except.ok fb => Except.ok fb
  | Except.error _ =>
    match lastFb with
    | some fb => Except.ok fb
    | none => Except.error "No framebuffer available"

/-- Whether the frame-update wait times out (the `frameUpdated` event never
fires, or fires only at or after the 2000 ms deadline). -/
def frameTimedOut (arrival : Option (Nat × List Nat)) : Bool :=
  match arrival with
  | none => true
  | some (t, _) => frameUpdateTimeoutMs ≤ t

/-- Model of `handleScreenshot` up to the encoding call: dimension guard, capture
with fallback, then pixel-format normalization; every error other than the
locally recovered frame-update timeout propagates. -/
def screenshotPipeline (width height : Nat) (pf : PixelFormat)
    (arrival : Option (Nat × List Nat)) (lastFb : Option (List Nat)) : Except String (List Nat) :=
  if width = 0 ∨ height = 0 then
    Except.error ("Invalid screen dimensions: " ++ toString width ++ "x" ++ toString height)
  else
    match captureFramebuffer arrival lastFb with
    | Except.error e => Except.error e
    | Except.ok fb => normalizeFramebuffer width height pf fb

/-! ## Connection setup (`src/vnc/client.ts`, `createConnection`) -/

/-- State of one `createConnection` promise executor: the
`hasReceivedInitialFramebuffer` flag, the settlement of the promise
(`none` while pending; a settled promise ignores later `resolve`/`reject`
calls), and whether the 15-second deadline timer is still armed.  The
source never stores the `setTimeout` handle and contains no
`clearTimeout`, so no transition disarms the timer. -/
structure ConnSetupState where
  hasReceivedInitialFramebuffer : Bool
  settled : Option (Except String Unit)
  timerArmed : Bool
deriving DecidableEq

/-- Events observable by the `createConnection` executor: the client
emitter events and the deadline timer firing at 15 s. -/
inductive ConnEvent where
  | connected
  | authenticated
  | frameUpdated
  | errorEvent (msg : String)
  | disconnected (reason : String)
  | timerFires
deriving DecidableEq

/-- First settlement wins: a JavaScript promise ignores `resolve`/`reject`
once settled. -/
def promiseSettle (s : ConnSetupState) (r : Except String Unit) : ConnSetupState :=
  match s.settled with
  | some _ => s
  | none => { s with settled := some r }

/-- One step of the `createConnection` executor, handler for handler from
the source: `connected` and `disconnected` only log; `authenticated` logs
and requests the initial frame; `frameUpdated` resolves on the first frame;
`error` rejects; the deadline timer rejects with the connection-timeout
error when it fires.  No branch touches `timerArmed`, because the source
never calls `clearTimeout`. -/
def connStep (s : ConnSetupState) (e : ConnEvent) : ConnSetupState :=
  match e with
  | ConnEvent.connected => s
  | ConnEvent.authenticated => s
  | ConnEvent.frameUpdated =>
    if s.hasReceivedInitialFramebuffer then s
    else promiseSettle { s with hasReceivedInitialFramebuffer := true } (Except.ok ())
  | ConnEvent.errorEvent m => promiseSettle s (Except.error ("VNC connection error: " ++ m))
  | ConnEvent.disconnected _ => s
  | ConnEvent.timerFires => promiseSettle s (Except.error "VNC connection timeout")

/-- Initial executor state: no frame yet, promise pending, deadline timer
armed by the `setTimeout(..., 15000)` call. -/
def connInit : ConnSetupState :=
  { hasReceivedInitialFramebuffer := false, settled := none, timerArmed := true }

/-- Run the executor over a sequence of events. -/
def connRun (es : List ConnEvent) : ConnSetupState :=
  es.foldl connStep connInit

/-! ## Image encoding (`src/tools/screenshot.ts`,
`captureScreenshotWithDimensions`) -/

/-- One call to the image library (`sharp`): the raw RGBA source
dimensions, an optional resize target, the JPEG quality, and the
progressive flag. -/
structure EncodeRequest where
  rawWidth : Nat
  rawHeight : Nat
  resizeTo : Option (Nat × Nat)
  quality : Nat
  progressive : Bool
deriving DecidableEq

/-- Result of `captureScreenshotWithDimensions`: the encoded size, the
reported dimensions, the resize annotation (`sizeInfo` in the source,
empty when no resize happened) and the summary text. -/
structure EncodedImage where
  sizeBytes : Nat
  finalWidth : Nat
  finalHeight : Nat
  sizeInfo : String
  text : String
deriving DecidableEq

/-- Model of `Math.floor(dim * Math.sqrt(800000 / resultSize))`, the downscaled
dimension of `captureScreenshotWithDimensions` (the double-precision
arithmetic of the source is idealized as real arithmetic). -/
noncomputable def scaledDim (dim resultSize : Nat) : Nat :=
  (Int.floor ((dim : ℝ) * Real.sqrt (800000 / (resultSize : ℝ)))).toNat

/-- Model of `captureScreenshotWithDimensions` from `src/tools/screenshot.ts`,
with the image library abstracted as a size oracle `encSize`: encode the
raw buffer at quality 80, progressive; if and only if the result exceeds
800000 bytes, re-encode the original raw buffer resized to the scaled
dimensions at quality 75, and annotate the text with the resize note. -/
noncomputable def captureScreenshotWithDimensions (width height : Nat)
    (encSize : EncodeRequest → Nat) (delay : Nat) : EncodedImage :=
  let imageSize := encSize { rawWidth := width, rawHeight := height,
                             resizeTo := none, quality := 80, progressive := true }
  let delayText := if 0 < delay then " (after " ++ toString delay ++ "ms delay)" else ""
  if 800000 < imageSize then
    let finalWidth := scaledDim width imageSize
    let finalHeight := scaledDim height imageSize
    let finalSize := encSize { rawWidth := width, rawHeight := height,
                               resizeTo := some (finalWidth, finalHeight),
                               quality := 75, progressive := false }
    let sizeInfo :=
      if finalWidth ≠ width then
        " (resized from " ++ toString width ++ "x" ++ toString height ++ ")"
      else ""
    { sizeBytes := finalSize, finalWidth := finalWidth, finalHeight := finalHeight,
      sizeInfo := sizeInfo,
      text := "Screenshot captured (" ++ toString finalWidth ++ "x" ++ toString finalHeight
        ++ ")" ++ sizeInfo ++ delayText }
  else
    { sizeBytes := imageSize, finalWidth := width, finalHeight := height,
      sizeInfo := "",
      text := "Screenshot captured (" ++ toString width ++ "x" ++ toString height
        ++ ")" ++ "" ++ delayText }

/-- A non-canonical 4-byte pixel format (BGRX byte order: shifts R=16,
G=8, B=0, maxima 255), used as concrete test data. -/
def bgrxTestFormat : PixelFormat :=
  { redShift := 16, greenShift := 8, blueShift := 0,
    redMax := 255, greenMax := 255, blueMax := 255 }

/-- A concrete encoder-size oracle: the quality-80 encoding is 3200000
bytes, any re-encoding is 500000 bytes. -/
def encSizeOracle : EncodeRequest → Nat :=
  fun r => if r.quality = 80 then 3200000 else 500000

/-! ## Helper lemmas -/

theorem indexed8ToRGBA_length (l : List Nat) : (indexed8ToRGBA l).length = 4 * l.length := by
  induction l with
  | nil => rfl
  | cons a t ih =>
    simp only [indexed8ToRGBA, List.length_cons, ih]
    omega

theorem rgb565ToRGBA_length : ∀ l : List Nat, (rgb565ToRGBA l).length = 4 * (l.length / 2)
  | [] => rfl
  | [_] => by simp [rgb565ToRGBA]
  | a :: b :: t => by
    have ih := rgb565ToRGBA_length t
    simp only [rgb565ToRGBA, List.length_cons, ih]
    omega

theorem rgb24ToRGBA_length : ∀ l : List Nat, (rgb24ToRGBA l).length = 4 * (l.length / 3)
  | [] => rfl
  | [_] => by simp [rgb24ToRGBA]
  | [_, _] => by simp [rgb24ToRGBA]
  | a :: b :: c :: t => by
    have ih := rgb24ToRGBA_length t
    simp only [rgb24ToRGBA, List.length_cons, ih]
    omega

theorem convertToRGBA_k3 (buffer : List Nat) (w h : Nat) (pf : PixelFormat)
    (hpc : 0 < w * h) (hlen : buffer.length = 3 * (w * h)) :
    convertToRGBA buffer w h pf = Except.ok (rgb24ToRGBA buffer) := by
  unfold convertToRGBA
  rw [if_pos ⟨hpc, hlen⟩]

theorem convertToRGBA_k2 (buffer : List Nat) (w h : Nat) (pf : PixelFormat)
    (hpc : 0 < w * h) (hlen : buffer.length = 2 * (w * h)) :
    convertToRGBA buffer w h pf = Except.ok (rgb565ToRGBA buffer) := by
  unfold convertToRGBA
  rw [if_neg (by rintro ⟨h1, h2⟩; omega), if_pos ⟨hpc, hlen⟩]

theorem convertToRGBA_k1 (buffer : List Nat) (w h : Nat) (pf : PixelFormat)
    (hpc : 0 < w * h) (hlen : buffer.length = w * h) :
    convertToRGBA buffer w h pf = Except.ok (indexed8ToRGBA buffer) := by
  unfold convertToRGBA
  rw [if_neg (by rintro ⟨h1, h2⟩; omega), if_neg (by rintro ⟨h1, h2⟩; omega),
    if_pos ⟨hpc, hlen⟩]

theorem normalizeFramebuffer_pass (w h : Nat) (pf : PixelFormat) (fb : List Nat)
    (h4 : fb.length = 4 * (w * h)) :
    normalizeFramebuffer w h pf fb = Except.ok fb := by
  unfold normalizeFramebuffer
  rw [if_pos h4]
  show checkFramebufferSize w h fb = Except.ok fb
  unfold checkFramebufferSize
  rw [if_pos (by omega)]

theorem normalizeFramebuffer_conv (w h : Nat) (pf : PixelFormat) (fb out : List Nat)
    (h4 : ¬(fb.length = 4 * (w * h)))
    (hconv : convertToRGBA fb w h pf = Except.ok out)
    (hout : out.length = w * h * 4) :
    normalizeFramebuffer w h pf fb = Except.ok out := by
  unfold normalizeFramebuffer
  rw [if_neg h4, hconv]
  show checkFramebufferSize w h out = Except.ok out
  unfold checkFramebufferSize
  rw [if_pos hout]

/-! ## Claim theorems -/

/-- Claim C6: for every supported source bytes-per-pixel (1, 2, 3, 4) and
every positive width and height, the framebuffer produced by the
normalization step has byte length exactly `width * height * 4`, and the
size check that follows normalization rejects any buffer of a different
length with the fatal size-mismatch error. -/
theorem normalized_framebuffer_length (w h k : Nat) (pf : PixelFormat) (fb : List Nat)
    (hw : 0 < w) (hh : 0 < h) (hk : k = 1 ∨ k = 2 ∨ k = 3 ∨ k = 4)
    (hlen : fb.length = k * (w * h)) :
    (∃ out, normalizeFramebuffer w h pf fb = Except.ok out ∧ out.length = w * h * 4) ∧
    (∀ fb2 : List Nat, fb2.length ≠ w * h * 4 →
      checkFramebufferSize w h fb2 = Except.error (sizeMismatchMsg w h fb2)) := by
  have hpc : 0 < w * h := Nat.mul_pos hw hh
  constructor
  · rcases hk with rfl | rfl | rfl | rfl
    · refine ⟨indexed8ToRGBA fb, ?_, ?_⟩
      · exact normalizeFramebuffer_conv w h pf fb _ (by omega)
          (convertToRGBA_k1 fb w h pf hpc (by omega))
          (by rw [indexed8ToRGBA_length]; omega)
      · rw [indexed8ToRGBA_length]; omega
    · refine ⟨rgb565ToRGBA fb, ?_, ?_⟩
      · exact normalizeFramebuffer_conv w h pf fb _ (by omega)
          (convertToRGBA_k2 fb w h pf hpc (by omega))
          (by rw [rgb565ToRGBA_length]; omega)
      · rw [rgb565ToRGBA_length]; omega
    · refine ⟨rgb24ToRGBA fb, ?_, ?_⟩
      · exact normalizeFramebuffer_conv w h pf fb _ (by omega)
          (convertToRGBA_k3 fb w h pf hpc (by omega))
          (by rw [rgb24ToRGBA_length]; omega)
      · rw [rgb24ToRGBA_length]; omega
    · exact ⟨fb, normalizeFramebuffer_pass w h pf fb (by omega), by omega⟩
  · intro fb2 hne
    unfold checkFramebufferSize
    rw [if_neg hne]

/-- Witness for claim C6 at a concrete input: a 2-byte-per-pixel (RGB565)
one-pixel buffer normalizes to a 4-byte RGBA buffer. -/
theorem normalized_framebuffer_length_witness :
    (∃ out, normalizeFramebuffer 1 1 bgrxTestFormat [0x00, 0xF8] = Except.ok out ∧
      out.length = 1 * 1 * 4) ∧
    (∀ fb2 : List Nat, fb2.length ≠ 1 * 1 * 4 →
      checkFramebufferSize 1 1 fb2 = Except.error (sizeMismatchMsg 1 1 fb2)) :=
  normalized_framebuffer_length 1 1 2 bgrxTestFormat [0x00, 0xF8]
    (by decide) (by decide) (by simp) (by decide)

/-- Claim C1 (counterexample): the screenshot normalization does not decode
a non-canonical 4-byte pixel format.  For the BGRX format (shifts R=16,
G=8, B=0, which `needsPixelFormatConversion` classifies as needing
conversion) and the one-pixel buffer `[1, 2, 3, 4]`, the claimed decode
would produce `[3, 2, 1, 255]` (as `convertBGRXToRGBA` does), but
`handleScreenshot`'s normalization returns the buffer unchanged. -/
theorem screenshot_bgrx_not_decoded :
    needsPixelFormatConversion bgrxTestFormat = true ∧
    normalizeFramebuffer 1 1 bgrxTestFormat [1, 2, 3, 4] = Except.ok [1, 2, 3, 4] ∧
    convertBGRXToRGBA [1, 2, 3, 4] 1 1 bgrxTestFormat = [3, 2, 1, 255] ∧
    ([1, 2, 3, 4] : List Nat) ≠ convertBGRXToRGBA [1, 2, 3, 4] 1 1 bgrxTestFormat := by
  decide

/-- Claim C1 (amended): every framebuffer whose bytes-per-pixel equals 4 is
passed through the screenshot normalization unchanged, regardless of the
pixel format's shifts and maxima; the conversion helpers
`needsPixelFormatConversion` and `convertBGRXToRGBA` are never consulted
on this path. -/
theorem screenshot_4bpp_passthrough (w h : Nat) (pf : PixelFormat) (fb : List Nat)
    (hlen : fb.length = 4 * (w * h)) :
    normalizeFramebuffer w h pf fb = Except.ok fb :=
  normalizeFramebuffer_pass w h pf fb hlen

/-- Witness for the amended claim C1: a 4-byte buffer in the non-canonical
BGRX format is passed through unchanged. -/
theorem screenshot_4bpp_passthrough_witness :
    ([9, 8, 7, 6] : List Nat).length = 4 * (1 * 1) ∧
    normalizeFramebuffer 1 1 bgrxTestFormat [9, 8, 7, 6] = Except.ok [9, 8, 7, 6] :=
  ⟨by decide, screenshot_4bpp_passthrough 1 1 bgrxTestFormat [9, 8, 7, 6] (by decide)⟩

/-- Claim C4: when either screen dimension is unknown (zero) every point is
reported valid; otherwise validation succeeds exactly for
`0 ≤ x < width` and `0 ≤ y < height`, and any point outside that
half-open range fails with the bounds error reporting the inclusive range
`(0, 0)` to `(width - 1, height - 1)`. -/
theorem validateCoordinates_spec (w h : Nat) (x y : Int) :
    ((w = 0 ∨ h = 0) → validateCoordinates w h x y = { valid := true, error := none }) ∧
    (0 < w → 0 < h →
      ((validateCoordinates w h x y).valid = true ↔
        0 ≤ x ∧ x < (w : Int) ∧ 0 ≤ y ∧ y < (h : Int))) ∧
    (0 < w → 0 < h → ¬(0 ≤ x ∧ x < (w : Int) ∧ 0 ≤ y ∧ y < (h : Int)) →
      validateCoordinates w h x y =
        { valid := false,
          error := some ("Coordinates (" ++ toString x ++ ", " ++ toString y
            ++ ") are outside screen bounds (0, 0) to ("
            ++ toString (w - 1) ++ ", " ++ toString (h - 1) ++ ")") }) := by
  refine ⟨?_, ?_, ?_⟩
  · intro hwh
    unfold validateCoordinates
    rw [if_pos hwh]
  · intro hw hh
    unfold validateCoordinates
    rw [if_neg (by omega)]
    by_cases hout : x < 0 ∨ x ≥ (w : Int) ∨ y < 0 ∨ y ≥ (h : Int)
    · rw [if_pos hout]
      simp only [Bool.false_eq_true, false_iff]
      omega
    · rw [if_neg hout]
      simp only [true_iff]
      omega
  · intro hw hh hviol
    unfold validateCoordinates
    rw [if_neg (by omega), if_pos (by omega)]

/-- Witness for claim C4 at concrete inputs: `x = width` is rejected with
the inclusive-range message, while the corner `(width - 1, height - 1)` is
accepted. -/
theorem validateCoordinates_spec_witness :
    validateCoordinates 10 5 10 0 =
      { valid := false,
        error := some "Coordinates (10, 0) are outside screen bounds (0, 0) to (9, 4)" } ∧
    (validateCoordinates 10 5 9 4).valid = true := by
  constructor
  · rw [(validateCoordinates_spec 10 5 10 0).2.2 (by decide) (by decide) (by decide)]
    decide
  · rw [((validateCoordinates_spec 10 5 9 4).2.1 (by decide) (by decide)).mpr (by decide)]

/-- Claim C5: for every key combination with at least one modifier,
`handleKeyPress` presses each modifier keysym in listed order with a 10 ms
gap after each, presses the main keysym, holds 50 ms, releases the main
keysym, waits 10 ms, then releases the modifier keysyms in reverse order
with a 10 ms gap after each release. -/
theorem keyCombination_events (input : String) (ms : List String) (k : String)
    (hp : parseKeyInput input = { modifiers := ms, key := k }) (hms : ms ≠ []) :
    handleKeyPressEvents input =
      ((ms.map getKeysym).map (fun m => [VncEvent.key m true, VncEvent.sleep 10])).flatten
        ++ [VncEvent.key (getKeysym k) true, VncEvent.sleep 50,
            VncEvent.key (getKeysym k) false, VncEvent.sleep 10]
        ++ ((ms.map getKeysym).reverse.map
              (fun m => [VncEvent.key m false, VncEvent.sleep 10])).flatten := by
  simp only [handleKeyPressEvents, hp]
  rw [if_neg (by simp [List.length_eq_zero, hms])]

/-- Witness for claim C5: `key_press("Shift+F10")` emits
press(Shift), press(F10), release(F10), release(Shift) in that order,
with the contractual delays. -/
theorem keyCombination_events_witness :
    parseKeyInput "Shift+F10" = { modifiers := ["Shift"], key := "F10" } ∧
    handleKeyPressEvents "Shift+F10" =
      [VncEvent.key 0xffe1 true, VncEvent.sleep 10,
       VncEvent.key 0xffc7 true, VncEvent.sleep 50,
       VncEvent.key 0xffc7 false, VncEvent.sleep 10,
       VncEvent.key 0xffe1 false, VncEvent.sleep 10] := by
  refine ⟨by decide, ?_⟩
  rw [keyCombination_events "Shift+F10" ["Shift"] "F10" (by decide) (by decide)]
  decide

/-- Claim C9 (counterexample): a click whose button argument is the empty
string — a string other than left, right and middle — is reported as
"left", not as the caller-supplied empty name, because
`args.button || 'left'` replaces every falsy value. -/
theorem click_empty_button_reported_left :
    (handleClickCore 10 20 (some "") (some false)).text = "clicked left button at (10, 20)" ∧
    "clicked left button at (10, 20)" ≠ "clicked " ++ "" ++ " button at (10, 20)" := by
  decide

/-- Claim C9 (amended): for every click whose button argument is a
non-empty string other than left, right and middle, the operation does not
fail: it silently falls back to the left-button mask `0x01`, performs the
click, and reports the caller-supplied button name in the result text (an
empty button string is instead replaced by "left" and reported as such). -/
theorem click_unknown_button_fallback (x y : Int) (s : String) (d : Bool)
    (hne : s ≠ "") (hl : s ≠ "left") (hr : s ≠ "right") (hm : s ≠ "middle") :
    buttonMaskOf s = 0x01 ∧
    handleClickCore x y (some s) (some d) =
      { text := (if d then "double-clicked" else "clicked") ++ " " ++ s
          ++ " button at (" ++ toString x ++ ", " ++ toString y ++ ")",
        events :=
          if d then
            [VncEvent.pointer x y 0x01, VncEvent.sleep 50, VncEvent.pointer x y 0,
             VncEvent.sleep 50, VncEvent.pointer x y 0x01, VncEvent.sleep 50,
             VncEvent.pointer x y 0]
          else
            [VncEvent.pointer x y 0x01, VncEvent.sleep 100, VncEvent.pointer x y 0] } := by
  have hmask : buttonMaskOf s = 0x01 := by
    unfold buttonMaskOf
    rw [if_neg hl, if_neg hr, if_neg hm]
  refine ⟨hmask, ?_⟩
  simp only [handleClickCore]
  rw [if_neg hne, hmask]

/-- Witness for the amended claim C9 at a concrete misspelled button
name. -/
theorem click_unknown_button_fallback_witness :
    buttonMaskOf "midle" = 0x01 ∧
    handleClickCore 1 2 (some "midle") (some false) =
      { text := "clicked midle button at (1, 2)",
        events := [VncEvent.pointer 1 2 0x01, VncEvent.sleep 100, VncEvent.pointer 1 2 0] } := by
  have h := click_unknown_button_fallback 1 2 "midle" false
    (by decide) (by decide) (by decide) (by decide)
  refine ⟨h.1, ?_⟩
  rw [h.2]
  decide

/-- Claim C10: every non-empty key name absent from the static keysym table
is mapped to the character code of its first character by the
`keyMap[key] || key.charCodeAt(0)` fallback. -/
theorem getKeysym_fallback_first_char (s : String) (c : Char) (rest : List Char)
    (hs : s.toList = c :: rest) (hnone : keysymTable.lookup s = none) :
    getKeysym s = c.toNat := by
  unfold getKeysym
  rw [hnone]
  unfold firstCharCode
  rw [hs]

/-- Witness for claim C10: the misspelled key name "Delet" is not in the
table and maps to the code of its first letter. -/
theorem getKeysym_fallback_first_char_witness :
    "Delet".toList = 'D' :: ['e', 'l', 'e', 't'] ∧
    keysymTable.lookup "Delet" = none ∧
    getKeysym "Delet" = 68 :=
  ⟨by decide, by decide,
   getKeysym_fallback_first_char "Delet" 'D' ['e', 'l', 'e', 't'] (by decide) (by decide)⟩

/-- Claim C2: for every screenshot, the capture step issues a full-region,
non-incremental frame-update request (incremental flag false, region
`(0, 0)`–`(width, height)`) and then waits up to 2000 ms for the
frame-updated event, accepting any event that arrives within the
deadline. -/
theorem screenshot_frame_request (w h : Nat) :
    screenshotCaptureStep w h =
      { request := { incremental := false, x := 0, y := 0, width := w, height := h },
        waitTimeoutMs := 2000 } ∧
    (∀ (t : Nat) (fb : List Nat) (lastFb : Option (List Nat)), t < frameUpdateTimeoutMs →
      captureFramebuffer (some (t, fb)) lastFb = Except.ok fb) := by
  refine ⟨rfl, ?_⟩
  intro t fb lastFb ht
  simp only [captureFramebuffer, freshFrame]
  rw [if_pos ht]

/-- Witness for claim C2 at concrete values. -/
theorem screenshot_frame_request_witness :
    screenshotCaptureStep 8 6 =
      { request := { incremental := false, x := 0, y := 0, width := 8, height := 6 },
        waitTimeoutMs := 2000 } ∧
    captureFramebuffer (some (100, [1, 2])) none = Except.ok [1, 2] :=
  ⟨(screenshot_frame_request 8 6).1,
   (screenshot_frame_request 8 6).2 100 [1, 2] none (by decide)⟩

/-- Claim C3: in `createConnection`, no executor transition ever disarms
the 15-second deadline timer (the source never stores the `setTimeout`
handle and has no `clearTimeout`), so after the initial framebuffer
resolves the promise the timer is still armed and later fires; the late
rejection is only a no-op because a settled promise ignores it. -/
theorem connection_timer_never_cleared :
    (∀ (s : ConnSetupState) (e : ConnEvent), (connStep s e).timerArmed = s.timerArmed) ∧
    (connRun [ConnEvent.connected, ConnEvent.authenticated, ConnEvent.frameUpdated]).settled
      = some (Except.ok ()) ∧
    (connRun [ConnEvent.connected, ConnEvent.authenticated, ConnEvent.frameUpdated]).timerArmed
      = true ∧
    (connRun [ConnEvent.connected, ConnEvent.authenticated, ConnEvent.frameUpdated,
      ConnEvent.timerFires]).settled = some (Except.ok ()) := by
  refine ⟨?_, by decide, by decide, by decide⟩
  intro s e
  obtain ⟨hf, st, ta⟩ := s
  cases e <;> cases st <;> cases hf <;> simp [connStep, promiseSettle]

/-- Claim C8: a frame-update timeout is recovered locally by falling back
to the session's last known framebuffer; if no buffer exists at all the
screenshot fails with the fatal no-framebuffer error; and any error
arising after the capture step (for example from normalization)
propagates out of the pipeline unrecovered. -/
theorem frame_timeout_fallback (arrival : Option (Nat × List Nat)) (lastFb : Option (List Nat)) :
    (∀ (t : Nat) (fb : List Nat), arrival = some (t, fb) → t < frameUpdateTimeoutMs →
      captureFramebuffer arrival lastFb = Except.ok fb) ∧
    (frameTimedOut arrival = true → ∀ fb, lastFb = some fb →
      captureFramebuffer arrival lastFb = Except.ok fb) ∧
    (frameTimedOut arrival = true → lastFb = none →
      captureFramebuffer arrival lastFb = Except.error "No framebuffer available") ∧
    (∀ (w h : Nat) (pf : PixelFormat) (fb : List Nat) (e : String), 0 < w → 0 < h →
      captureFramebuffer arrival lastFb = Except.ok fb →
      normalizeFramebuffer w h pf fb = Except.error e →
      screenshotPipeline w h pf arrival lastFb = Except.error e) := by
  refine ⟨?_, ?_, ?_, ?_⟩
  · rintro t fb rfl ht
    simp only [captureFramebuffer, freshFrame]
    rw [if_pos ht]
  · intro hto fb hl
    subst hl
    rcases arrival with _ | ⟨t, fb2⟩
    · rfl
    · simp only [frameTimedOut, frameUpdateTimeoutMs, decide_eq_true_eq] at hto
      simp only [captureFramebuffer, freshFrame]
      rw [if_neg (by unfold frameUpdateTimeoutMs; omega)]
  · intro hto hl
    subst hl
    rcases arrival with _ | ⟨t, fb2⟩
    · rfl
    · simp only [frameTimedOut, frameUpdateTimeoutMs, decide_eq_true_eq] at hto
      simp only [captureFramebuffer, freshFrame]
      rw [if_neg (by unfold frameUpdateTimeoutMs; omega)]
  · intro w h pf fb e hw hh hcap hnorm
    unfold screenshotPipeline
    rw [if_neg (by omega), hcap]
    exact hnorm

/-- Witness for claim C8: with no frame event and a last known buffer, the
fallback succeeds. -/
theorem frame_timeout_fallback_witness :
    frameTimedOut none = true ∧
    captureFramebuffer none (some [1, 2, 3, 4]) = Except.ok [1, 2, 3, 4] :=
  ⟨by decide, (frame_timeout_fallback none (some [1, 2, 3, 4])).2.1 (by decide) [1, 2, 3, 4] rfl⟩

theorem scaledDim_lt (w s : Nat) (hw : 0 < w) (hs : 800000 < s) : scaledDim w s < w := by
  unfold scaledDim
  have hs0 : (0 : ℝ) < (s : ℝ) := by
    have : 0 < s := by omega
    exact_mod_cast this
  have hratio : (800000 : ℝ) / (s : ℝ) < 1 := by
    rw [div_lt_one hs0]
    exact_mod_cast hs
  have hsqrt : Real.sqrt (800000 / (s : ℝ)) < 1 := by
    calc Real.sqrt (800000 / (s : ℝ)) < Real.sqrt 1 :=
          Real.sqrt_lt_sqrt (by positivity) hratio
      _ = 1 := Real.sqrt_one
  have hw' : (0 : ℝ) < (w : ℝ) := by exact_mod_cast hw
  have hmul : (w : ℝ) * Real.sqrt (800000 / (s : ℝ)) < (w : ℝ) := by
    nlinarith [Real.sqrt_nonneg ((800000 : ℝ) / (s : ℝ))]
  have hfloor : Int.floor ((w : ℝ) * Real.sqrt (800000 / (s : ℝ))) < (w : ℤ) := by
    apply Int.floor_lt.mpr
    push_cast
    exact hmul
  have hnn : (0 : ℤ) ≤ Int.floor ((w : ℝ) * Real.sqrt (800000 / (s : ℝ))) := by
    apply Int.floor_nonneg.mpr
    positivity
  omega

/-- Claim C7: the encoder first encodes the canonical RGBA buffer as JPEG
at quality 80, progressive; if and only if the result exceeds 800000
bytes, it computes `scale = sqrt(800000 / resultSize)`, takes
`floor(width * scale)` and `floor(height * scale)` as the final
dimensions, re-encodes the original raw buffer at quality 75 with those
dimensions, and reports the final dimensions together with the resize
annotation; otherwise the quality-80 result and the original dimensions
are reported with no resize annotation. -/
theorem imageEncoder_resize (w h delay : Nat) (encSize : EncodeRequest → Nat) (hw : 0 < w) :
    (encSize { rawWidth := w, rawHeight := h, resizeTo := none, quality := 80, progressive := true } ≤ 800000 →
      captureScreenshotWithDimensions w h encSize delay =
        { sizeBytes := encSize { rawWidth := w, rawHeight := h, resizeTo := none,
                                 quality := 80, progressive := true },
          finalWidth := w, finalHeight := h, sizeInfo := "",
          text := "Screenshot captured (" ++ toString w ++ "x" ++ toString h ++ ")" ++ ""
            ++ (if 0 < delay then " (after " ++ toString delay ++ "ms delay)" else "") }) ∧
    (800000 < encSize { rawWidth := w, rawHeight := h, resizeTo := none, quality := 80, progressive := true } →
      scaledDim w (encSize { rawWidth := w, rawHeight := h, resizeTo := none,
                             quality := 80, progressive := true }) < w ∧
      captureScreenshotWithDimensions w h encSize delay =
        (let firstSize := encSize { rawWidth := w, rawHeight := h, resizeTo := none,
                                    quality := 80, progressive := true }
        { sizeBytes := encSize { rawWidth := w, rawHeight := h,
                                 resizeTo := some (scaledDim w firstSize, scaledDim h firstSize),
                                 quality := 75, progressive := false },
          finalWidth := scaledDim w firstSize,
          finalHeight := scaledDim h firstSize,
          sizeInfo := " (resized from " ++ toString w ++ "x" ++ toString h ++ ")",
          text := "Screenshot captured (" ++ toString (scaledDim w firstSize) ++ "x"
            ++ toString (scaledDim h firstSize) ++ ")"
            ++ (" (resized from " ++ toString w ++ "x" ++ toString h ++ ")")
            ++ (if 0 < delay then " (after " ++ toString delay ++ "ms delay)" else "") })) := by
  constructor
  · intro hle
    simp only [captureScreenshotWithDimensions]
    rw [if_neg (by omega)]
  · intro hgt
    have hlt := scaledDim_lt w
      (encSize { rawWidth := w, rawHeight := h, resizeTo := none, quality := 80, progressive := true })
      hw hgt
    refine ⟨hlt, ?_⟩
    simp only [captureScreenshotWithDimensions]
    rw [if_pos hgt, if_pos (by omega)]

theorem sqrt_quarter_ratio : Real.sqrt (800000 / ((3200000 : Nat) : ℝ)) = 1 / 2 := by
  have h1 : ((3200000 : Nat) : ℝ) = 3200000 := by norm_num
  have h2 : (800000 : ℝ) / 3200000 = (1 / 2) ^ 2 := by norm_num
  rw [h1, h2, Real.sqrt_sq (by norm_num : (0 : ℝ) ≤ 1 / 2)]

theorem scaledDim_640 : scaledDim 640 3200000 = 320 := by
  unfold scaledDim
  rw [sqrt_quarter_ratio]
  rw [show ((640 : Nat) : ℝ) * (1 / 2) = ((320 : ℤ) : ℝ) by norm_num, Int.floor_intCast]
  rfl

theorem scaledDim_480 : scaledDim 480 3200000 = 240 := by
  unfold scaledDim
  rw [sqrt_quarter_ratio]
  rw [show ((480 : Nat) : ℝ) * (1 / 2) = ((240 : ℤ) : ℝ) by norm_num, Int.floor_intCast]
  rfl

/-- Witness for claim C7: with a quality-80 result of 3200000 bytes for a
640×480 screen, the scale is `sqrt(1/4) = 1/2`, the re-encode happens at
320×240 and the result text carries the resize annotation. -/
theorem imageEncoder_resize_witness :
    800000 < encSizeOracle { rawWidth := 640, rawHeight := 480, resizeTo := none,
                             quality := 80, progressive := true } ∧
    captureScreenshotWithDimensions 640 480 encSizeOracle 0 =
      { sizeBytes := 500000, finalWidth := 320, finalHeight := 240,
        sizeInfo := " (resized from 640x480)",
        text := "Screenshot captured (320x240) (resized from 640x480)" } := by
  have h := (imageEncoder_resize 640 480 0 encSizeOracle (by decide)).2 (by decide)
  refine ⟨by decide, ?_⟩
  rw [h.2]
  have h80 : encSizeOracle { rawWidth := 640, rawHeight := 480, resizeTo := none,
                             quality := 80, progressive := true } = 3200000 := rfl
  simp only [h80, scaledDim_640, scaledDim_480]
  decide
